import Mathlib

/-!
Verification of the device reference and descriptor lifecycle core of a
libusb binding (src/device.rs), as a shallow embedding.

The foreign libusb stack is modelled by a stub (structure Stub) holding the
device topology and the programmed outcome of every foreign call, together
with an instrumented reference-count state (structure CountState) that
records every increment and decrement call per device identity.  Every
operation of the Rust impl Device is translated into an explicit
state-passing Lean function over CountState, faithful to the foreign calls
the Rust code makes.
-/

/-- Instrumented foreign-stack counters: for each device identity, how many
times the reference count was incremented and decremented. -/
structure CountState where
  incs : Nat → Nat
  decs : Nat → Nat

/-- The state in which no increment or decrement has happened yet. -/
def zeroCounts : CountState := ⟨fun _ => 0, fun _ => 0⟩

/-- Bump a per-identity counter at one identity. -/
def bumpAt (f : Nat → Nat) (i : Nat) : Nat → Nat :=
  fun x => if x = i then f x + 1 else f x

/-- Foreign call: increment the reference count of a device identity. -/
def libusb_ref_device (dev : Nat) (st : CountState) : CountState :=
  ⟨bumpAt st.incs dev, st.decs⟩

/-- Foreign call: decrement the reference count of a device identity. -/
def libusb_unref_device (dev : Nat) (st : CountState) : CountState :=
  ⟨st.incs, bumpAt st.decs dev⟩

/-- Raw device descriptor as reported by the foreign stack (the fields the
claims mention; fully copied out by the decoder). -/
structure RawDeviceDescriptor where
  idVendor : Nat
  idProduct : Nat
  bNumConfigurations : Nat
deriving DecidableEq

/-- Raw configuration descriptor buffer as reported by the foreign stack. -/
structure RawConfigDescriptor where
  bConfigurationValue : Nat
  interfaceData : List (Nat × List Nat)
deriving DecidableEq

/-- Modelled from the spec: the owned decoded device descriptor record
(module device_descriptor is not under src); all fields are copied out of
the foreign buffer. -/
structure DeviceDescriptor where
  vendor_id : Nat
  product_id : Nat
  num_configurations : Nat
deriving DecidableEq

/-- Modelled from the spec: the owned decoded configuration descriptor
record (module config_descriptor is not under src); owns all nested data. -/
structure ConfigDescriptor where
  number : Nat
  interfaces : List (Nat × List Nat)
deriving DecidableEq

/-- Modelled from the spec: decoder device_descriptor::from_libusb (not
under src); a pure total copy of the foreign fields. -/
def device_descriptor_from_libusb (raw : RawDeviceDescriptor) : DeviceDescriptor :=
  ⟨raw.idVendor, raw.idProduct, raw.bNumConfigurations⟩

/-- Modelled from the spec: decoder config_descriptor::from_libusb (not
under src); a pure total copy of the foreign buffer into an owned record. -/
def config_descriptor_from_libusb (raw : RawConfigDescriptor) : ConfigDescriptor :=
  ⟨raw.bConfigurationValue, raw.interfaceData⟩

/-- Foreign status code constants of libusb. -/
def LIBUSB_ERROR_ACCESS : Int := -3

/-- Foreign status code: device disconnected. -/
def LIBUSB_ERROR_NO_DEVICE : Int := -4

/-- Foreign status code: entity not found. -/
def LIBUSB_ERROR_NOT_FOUND : Int := -5

/-- Modelled from the spec: the error taxonomy of section 7 (the error
module is not under src). -/
inductive Error where
  | HostQueryError
  | NotFound
  | AccessDenied
  | NoDevice
deriving DecidableEq

/-- Modelled from the spec: the status-code-to-error mapping applied by the
try_unsafe macro (error module not under src).  Per the section 7 taxonomy:
NotFound for a missing configuration, AccessDenied for insufficient
permission, NoDevice for a disconnected device, HostQueryError for any
other negative foreign status code. -/
def error_from_libusb (code : Int) : Error :=
  if code = LIBUSB_ERROR_NOT_FOUND then Error.NotFound
  else if code = LIBUSB_ERROR_ACCESS then Error.AccessDenied
  else if code = LIBUSB_ERROR_NO_DEVICE then Error.NoDevice
  else Error.HostQueryError

/-- Modelled from the spec: the structured speed variants (module fields is
not under src). -/
inductive Speed where
  | Unknown
  | Low
  | Full
  | High
  | Super
  | SuperPlus
deriving DecidableEq

/-- Modelled from the spec: the decoder fields::speed_from_libusb (not
under src); recognized foreign codes map to their variant, every other code
maps to Unknown rather than failing. -/
def speed_from_libusb (code : Int) : Speed :=
  if code = 1 then Speed.Low
  else if code = 2 then Speed.Full
  else if code = 3 then Speed.High
  else if code = 4 then Speed.Super
  else if code = 5 then Speed.SuperPlus
  else Speed.Unknown

/-- The foreign stub: device topology and the programmed outcome of every
foreign query, per device identity. -/
structure Stub where
  parentOf : Nat → Option Nat
  rawDeviceDesc : Nat → RawDeviceDescriptor
  deviceDescStatus : Nat → Int
  numConfigurations : Nat → Nat
  rawConfigDesc : Nat → Nat → RawConfigDescriptor
  configStatus : Nat → Nat → Int
  rawActiveConfig : Nat → RawConfigDescriptor
  activeConfigStatus : Nat → Int
  portPath : Nat → List Nat
  speedCode : Nat → Int
  openStatus : Nat → Int
  openHandleOf : Nat → Nat
  busNum : Nat → Nat
  portNum : Nat → Nat
  addrOf : Nat → Nat

/-- A reference to a USB device: the PhantomData context lifetime is
modelled as a context token, the raw pointer as a device identity. -/
structure Device where
  context : Nat
  device : Nat
deriving DecidableEq

/-- A device handle (an open session): foreign handle plus the context
token of the originating device reference. -/
structure DeviceHandle where
  context : Nat
  handle : Nat
deriving DecidableEq

/-- Modelled from the spec: the constructor device_handle::from_libusb (not
under src); wraps the foreign handle with the given context token. -/
def device_handle_from_libusb (context : Nat) (handle : Nat) : DeviceHandle :=
  ⟨context, handle⟩

/-- Foreign call libusb_get_parent: reports the parent identity, or none
for the root hub; touches no reference count. -/
def libusb_get_parent (stub : Stub) (dev : Nat) (st : CountState) :
    Option Nat × CountState :=
  (stub.parentOf dev, st)

/-- Foreign call libusb_get_device_descriptor: status code plus the buffer
it wrote (read by the caller only on status 0). -/
def libusb_get_device_descriptor (stub : Stub) (dev : Nat) (st : CountState) :
    (Int × RawDeviceDescriptor) × CountState :=
  ((stub.deviceDescStatus dev, stub.rawDeviceDesc dev), st)

/-- Foreign call libusb_get_config_descriptor.  Modelled from the spec: the
foreign stack reports NOT_FOUND for an index at or beyond the configuration
count, otherwise its programmed status, writing the buffer only on
success. -/
def libusb_get_config_descriptor (stub : Stub) (dev idx : Nat) (st : CountState) :
    (Int × RawConfigDescriptor) × CountState :=
  ((if stub.numConfigurations dev ≤ idx then (LIBUSB_ERROR_NOT_FOUND, ⟨0, []⟩)
    else (stub.configStatus dev idx, stub.rawConfigDesc dev idx)), st)

/-- Foreign call libusb_get_active_config_descriptor. -/
def libusb_get_active_config_descriptor (stub : Stub) (dev : Nat) (st : CountState) :
    (Int × RawConfigDescriptor) × CountState :=
  ((stub.activeConfigStatus dev, stub.rawActiveConfig dev), st)

/-- Foreign call libusb_get_bus_number. -/
def libusb_get_bus_number (stub : Stub) (dev : Nat) (st : CountState) :
    Nat × CountState :=
  (stub.busNum dev, st)

/-- Foreign call libusb_get_port_number. -/
def libusb_get_port_number (stub : Stub) (dev : Nat) (st : CountState) :
    Nat × CountState :=
  (stub.portNum dev, st)

/-- Write the first n entries of src over the front of dst. -/
def writePrefix (dst src : List Nat) (n : Nat) : List Nat :=
  src.take n ++ dst.drop n

/-- Foreign call libusb_get_port_numbers.  Modelled from the spec: the
foreign stack writes min(tier depth, capacity) port numbers into the given
array and reports that count as the return value (truncation at the
capacity, not an error). -/
def libusb_get_port_numbers (stub : Stub) (dev : Nat) (array : List Nat)
    (len : Nat) (st : CountState) : (Int × List Nat) × CountState :=
  ((Int.ofNat (min (stub.portPath dev).length len),
    writePrefix array (stub.portPath dev) (min (stub.portPath dev).length len)), st)

/-- Foreign call libusb_get_device_address. -/
def libusb_get_device_address (stub : Stub) (dev : Nat) (st : CountState) :
    Nat × CountState :=
  (stub.addrOf dev, st)

/-- Foreign call libusb_get_device_speed. -/
def libusb_get_device_speed (stub : Stub) (dev : Nat) (st : CountState) :
    Int × CountState :=
  (stub.speedCode dev, st)

/-- Foreign call libusb_open: status code plus the handle it wrote (read by
the caller only on status 0). -/
def libusb_open (stub : Stub) (dev : Nat) (st : CountState) :
    (Int × Nat) × CountState :=
  ((stub.openStatus dev, stub.openHandleOf dev), st)

/-- The Rust cast of the i32 return value to usize on a 64-bit target: sign
extension reinterpreted as an unsigned 64-bit value. -/
def castUsize (i : Int) : Nat := (i % (2 : Int) ^ 64).toNat

/-- The Rust slice expression array[..n]: defined only when n is at most
the array length; out of bounds is the panic branch (none). -/
def sliceTo (xs : List Nat) (n : Nat) : Option (List Nat) :=
  if n ≤ xs.length then some (xs.take n) else none

/-- The pure tail of Device::port_numbers after the foreign call: cast the
returned i32 to usize and slice the 7-byte array at it, copying the slice
into a vector; none is the reachable out-of-bounds panic. -/
def port_numbers_slice (ret : Int) (array : List Nat) : Option (List Nat) :=
  sliceTo array (castUsize ret)

/-- Device::device_descriptor: one foreign query, then decode on status 0
or map the status to an error (try_unsafe). -/
def Device.device_descriptor (stub : Stub) (d : Device) (st : CountState) :
    Except Error DeviceDescriptor × CountState :=
  let r := libusb_get_device_descriptor stub d.device st
  ((if r.1.1 = 0 then Except.ok (device_descriptor_from_libusb r.1.2)
    else Except.error (error_from_libusb r.1.1)), r.2)

/-- Device::config_descriptor: one foreign query at the given index, then
decode on status 0 or map the status to an error (try_unsafe). -/
def Device.config_descriptor (stub : Stub) (d : Device) (config_index : Nat)
    (st : CountState) : Except Error ConfigDescriptor × CountState :=
  let r := libusb_get_config_descriptor stub d.device config_index st
  ((if r.1.1 = 0 then Except.ok (config_descriptor_from_libusb r.1.2)
    else Except.error (error_from_libusb r.1.1)), r.2)

/-- Device::active_config_descriptor. -/
def Device.active_config_descriptor (stub : Stub) (d : Device) (st : CountState) :
    Except Error ConfigDescriptor × CountState :=
  let r := libusb_get_active_config_descriptor stub d.device st
  ((if r.1.1 = 0 then Except.ok (config_descriptor_from_libusb r.1.2)
    else Except.error (error_from_libusb r.1.1)), r.2)

/-- Device::bus_number. -/
def Device.bus_number (stub : Stub) (d : Device) (st : CountState) :
    Nat × CountState :=
  libusb_get_bus_number stub d.device st

/-- Device::port_number. -/
def Device.port_number (stub : Stub) (d : Device) (st : CountState) :
    Nat × CountState :=
  libusb_get_port_number stub d.device st

/-- Device::port_numbers: a zeroed 7-byte array, the foreign call with
capacity 7, then the cast-and-slice copy of the reported prefix. -/
def Device.port_numbers (stub : Stub) (d : Device) (st : CountState) :
    Option (List Nat) × CountState :=
  let array : List Nat := List.replicate 7 0
  let r := libusb_get_port_numbers stub d.device array 7 st
  (port_numbers_slice r.1.1 r.1.2, r.2)

/-- Device::address. -/
def Device.address (stub : Stub) (d : Device) (st : CountState) :
    Nat × CountState :=
  libusb_get_device_address stub d.device st

/-- Device::speed: decode the foreign speed code. -/
def Device.speed (stub : Stub) (d : Device) (st : CountState) :
    Speed × CountState :=
  let r := libusb_get_device_speed stub d.device st
  (speed_from_libusb r.1, r.2)

/-- Device::open: the foreign open call, then wrap the handle with the same
context token on status 0 or map the status to an error (try_unsafe). -/
def Device.open_dev (stub : Stub) (d : Device) (st : CountState) :
    Except Error DeviceHandle × CountState :=
  let r := libusb_open stub d.device st
  ((if r.1.1 = 0 then Except.ok (device_handle_from_libusb d.context r.1.2)
    else Except.error (error_from_libusb r.1.1)), r.2)

/-- Device::parent, exactly as the source: reads the foreign parent and, if
non-null, builds a Device with the same context token and the parent
identity WITHOUT calling libusb_ref_device. -/
def Device.parent (stub : Stub) (d : Device) (st : CountState) :
    Option Device × CountState :=
  let r := libusb_get_parent stub d.device st
  (match r.1 with
   | none => none
   | some p => some ⟨d.context, p⟩, r.2)

/-- The free function from_libusb: increments the foreign reference count,
then builds the Device. -/
def from_libusb (context : Nat) (device : Nat) (st : CountState) :
    Device × CountState :=
  (⟨context, device⟩, libusb_ref_device device st)

/-- The Drop impl: releases the device reference (one decrement). -/
def Device.drop (d : Device) (st : CountState) : CountState :=
  libusb_unref_device d.device st

/-- One construction or destruction event of a Device Reference. -/
inductive RefOp where
  | enumerate (context device : Nat)
  | fromParent (src : Device)
  | dropRef (d : Device)

/-- Run one event against the instrumented stub. -/
def runOp (stub : Stub) (st : CountState) : RefOp → CountState
  | RefOp.enumerate c v => (from_libusb c v st).2
  | RefOp.fromParent src => (Device.parent stub src st).2
  | RefOp.dropRef d => Device.drop d st

/-- Run a sequence of events against the instrumented stub. -/
def runOps (stub : Stub) : List RefOp → CountState → CountState
  | [], st => st
  | op :: rest, st => runOps stub rest (runOp stub st op)

/-- How many references to identity i a sequence of events constructs:
every enumerate of i, and every fromParent whose source has parent i. -/
def constructedCount (stub : Stub) (i : Nat) : List RefOp → Nat
  | [] => 0
  | RefOp.enumerate _ v :: rest =>
      (if v = i then 1 else 0) + constructedCount stub i rest
  | RefOp.fromParent src :: rest =>
      (if stub.parentOf src.device = some i then 1 else 0) + constructedCount stub i rest
  | RefOp.dropRef _ :: rest => constructedCount stub i rest

/-- How many references to identity i a sequence of events destroys. -/
def destroyedCount (i : Nat) : List RefOp → Nat
  | [] => 0
  | RefOp.dropRef d :: rest =>
      (if d.device = i then 1 else 0) + destroyedCount i rest
  | _ :: rest => destroyedCount i rest

/-- Net foreign reference-count delta recorded for identity i. -/
def netDelta (st : CountState) (i : Nat) : Int :=
  (st.incs i : Int) - (st.decs i : Int)

/-- A stub whose every programmed outcome is inert. -/
def defaultStub : Stub :=
  ⟨fun _ => none, fun _ => ⟨0, 0, 0⟩, fun _ => 0, fun _ => 0, fun _ _ => ⟨0, []⟩,
   fun _ _ => 0, fun _ => ⟨0, []⟩, fun _ => 0, fun _ => [], fun _ => 0,
   fun _ => 0, fun _ => 0, fun _ => 0, fun _ => 0, fun _ => 0⟩

/-- A stub in which device 1 has parent device 0. -/
def bugStub : Stub :=
  { defaultStub with parentOf := fun n => if n = 1 then some 0 else none }

/-- A two-tier topology: device 2 (leaf) has parent 1 (hub), which is a
root (no parent). -/
def twoTierStub : Stub :=
  { defaultStub with parentOf := fun n => if n = 2 then some 1 else none }

/-- A stub with one configuration per device whose config query fails with
a generic negative status. -/
def cfgStub : Stub :=
  { defaultStub with
      numConfigurations := fun _ => 1,
      configStatus := fun _ _ => -1 }

/-- A stub whose open call reports a disconnected device. -/
def goneStub : Stub :=
  { defaultStub with openStatus := fun _ => LIBUSB_ERROR_NO_DEVICE }

/-- A stub reporting an unrecognized speed code. -/
def fastStub : Stub :=
  { defaultStub with speedCode := fun _ => 99 }

/-- A stub reporting vendor id 0x1234 and product id 0x5678. -/
def vendorStub : Stub :=
  { defaultStub with rawDeviceDesc := fun _ => ⟨0x1234, 0x5678, 1⟩ }

/-- Iterated parent lookup: n applications of Device.parent from d. -/
def parentIter (stub : Stub) (st : CountState) (d : Device) : Nat → Option Device
  | 0 => some d
  | n + 1 => Option.bind (parentIter stub st d n) fun e => (Device.parent stub e st).1

/-- C1: the reference-count pairing claim fails on the code.  In a stub
where device 1 has parent 0, constructing one reference via parent() and
then dropping it records a net delta of -1 on identity 0 although exactly
one reference to identity 0 was constructed and exactly one destroyed: the
source parent() builds the Device without calling libusb_ref_device while
Drop still calls libusb_unref_device. -/
theorem refcount_delta_bug :
    netDelta (runOps bugStub [RefOp.fromParent ⟨0, 1⟩, RefOp.dropRef ⟨0, 0⟩] zeroCounts) 0 = -1 ∧
    constructedCount bugStub 0 [RefOp.fromParent ⟨0, 1⟩, RefOp.dropRef ⟨0, 0⟩] = 1 ∧
    destroyedCount 0 [RefOp.fromParent ⟨0, 1⟩, RefOp.dropRef ⟨0, 0⟩] = 1 := by
  refine ⟨?_, ?_, ?_⟩ <;> decide

/-- C2: parent() returns none exactly when the foreign stack reports a
null parent, and otherwise returns a reference to the reported upstream
hub (with the same context token). -/
theorem parent_none_iff_null (stub : Stub) (d : Device) (st : CountState) :
    ((Device.parent stub d st).1 = none ↔ stub.parentOf d.device = none) ∧
    ∀ p, stub.parentOf d.device = some p →
      (Device.parent stub d st).1 = some ⟨d.context, p⟩ := by
  refine ⟨?_, ?_⟩
  · cases h : stub.parentOf d.device <;>
      simp [Device.parent, libusb_get_parent, h]
  · intro p hp
    simp [Device.parent, libusb_get_parent, hp]

/-- Two-tier scenario for C2: in a root-hub-leaf stub the leaf parent is
the hub and the hub parent is none. -/
theorem parent_none_iff_null_scenario :
    (Device.parent twoTierStub ⟨0, 2⟩ zeroCounts).1 = some ⟨0, 1⟩ ∧
    (Device.parent twoTierStub ⟨0, 1⟩ zeroCounts).1 = none := by
  refine ⟨(parent_none_iff_null twoTierStub ⟨0, 2⟩ zeroCounts).2 1 rfl, ?_⟩
  exact (parent_none_iff_null twoTierStub ⟨0, 1⟩ zeroCounts).1.mpr rfl

/-- C3: for an index at or beyond the configuration count the result is
the NotFound error; a valid index whose foreign status is a failing code
other than the named special codes yields HostQueryError; and an ok record
exists only when the index is valid and the foreign status is 0, so no
record is constructed on any failure path. -/
theorem config_descriptor_errors (stub : Stub) (d : Device) (idx : Nat) (st : CountState) :
    (stub.numConfigurations d.device ≤ idx →
      (Device.config_descriptor stub d idx st).1 = Except.error Error.NotFound) ∧
    (idx < stub.numConfigurations d.device →
      stub.configStatus d.device idx ≠ 0 →
      stub.configStatus d.device idx ≠ LIBUSB_ERROR_NOT_FOUND →
      stub.configStatus d.device idx ≠ LIBUSB_ERROR_ACCESS →
      stub.configStatus d.device idx ≠ LIBUSB_ERROR_NO_DEVICE →
      (Device.config_descriptor stub d idx st).1 = Except.error Error.HostQueryError) ∧
    ∀ c, (Device.config_descriptor stub d idx st).1 = Except.ok c →
      idx < stub.numConfigurations d.device ∧ stub.configStatus d.device idx = 0 := by
  by_cases hle : stub.numConfigurations d.device ≤ idx
  · refine ⟨fun _ => ?_, fun hlt => absurd hle (by omega), fun c hc => ?_⟩
    · simp [Device.config_descriptor, libusb_get_config_descriptor, hle,
        error_from_libusb, LIBUSB_ERROR_NOT_FOUND]
    · simp [Device.config_descriptor, libusb_get_config_descriptor, hle,
        error_from_libusb, LIBUSB_ERROR_NOT_FOUND] at hc
  · refine ⟨fun h => absurd h hle, fun _ h0 h5 h3 h4 => ?_, fun c hc => ?_⟩
    · simp [Device.config_descriptor, libusb_get_config_descriptor, hle,
        error_from_libusb, h0, h5, h3, h4]
    · refine ⟨by omega, ?_⟩
      by_cases h0 : stub.configStatus d.device idx = 0
      · exact h0
      · simp [Device.config_descriptor, libusb_get_config_descriptor, hle, h0] at hc

/-- Witness for C3 at a concrete stub: index 1 on a one-configuration
device yields NotFound, and a generic failing status on a valid index
yields HostQueryError. -/
theorem config_descriptor_errors_witness :
    (Device.config_descriptor cfgStub ⟨0, 0⟩ 1 zeroCounts).1 = Except.error Error.NotFound ∧
    (Device.config_descriptor cfgStub ⟨0, 0⟩ 0 zeroCounts).1 = Except.error Error.HostQueryError := by
  refine ⟨(config_descriptor_errors cfgStub ⟨0, 0⟩ 1 zeroCounts).1 (by decide), ?_⟩
  exact (config_descriptor_errors cfgStub ⟨0, 0⟩ 0 zeroCounts).2.1
    (by decide) (by decide) (by decide) (by decide) (by decide)

/-- C4: port_numbers returns, without a panic, exactly the prefix of the
foreign-reported port path the foreign stack wrote: min(depth, 7) entries
in their original order, so depth 3 gives 3 entries and any depth beyond 7
gives exactly 7 (truncation, not an error). -/
theorem port_numbers_spec (stub : Stub) (d : Device) (st : CountState) :
    (Device.port_numbers stub d st).1 = some ((stub.portPath d.device).take 7) ∧
    ((stub.portPath d.device).take 7).length = min (stub.portPath d.device).length 7 := by
  set L := stub.portPath d.device with hL
  set n := min L.length 7 with hn
  have hn7 : n ≤ 7 := Nat.min_le_right _ _
  have hnL : n ≤ L.length := Nat.min_le_left _ _
  have h64 : (2 : Int) ^ 64 = 18446744073709551616 := by norm_num
  have hcast : castUsize (Int.ofNat n) = n := by
    unfold castUsize
    rw [h64]
    simp only [Int.ofNat_eq_coe]
    omega
  have htl : (L.take n).length = n := by
    rw [List.length_take]
    omega
  have harr : (L.take n ++ (List.replicate 7 (0 : Nat)).drop n).length = 7 := by
    simp [htl]
    omega
  constructor
  · show port_numbers_slice (Int.ofNat n) (writePrefix (List.replicate 7 0) L n) =
      some (L.take 7)
    unfold port_numbers_slice sliceTo writePrefix
    rw [hcast, harr, if_pos hn7, List.take_left' htl]
    exact congrArg some (List.take_eq_take.mpr (by omega))
  · rw [List.length_take]
    omega

/-- C5: speed is total by construction, and every foreign code outside the
recognized set decodes to Unknown rather than failing. -/
theorem speed_unknown_fallback (stub : Stub) (d : Device) (st : CountState)
    (h : stub.speedCode d.device ∉ ([1, 2, 3, 4, 5] : List Int)) :
    (Device.speed stub d st).1 = Speed.Unknown := by
  simp only [List.mem_cons, List.not_mem_nil, or_false, not_or] at h
  obtain ⟨h1, h2, h3, h4, h5⟩ := h
  simp [Device.speed, libusb_get_device_speed, speed_from_libusb, h1, h2, h3, h4, h5]

/-- Witness for C5: the unrecognized code 99 decodes to Unknown. -/
theorem speed_unknown_fallback_witness :
    (Device.speed fastStub ⟨0, 0⟩ zeroCounts).1 = Speed.Unknown :=
  speed_unknown_fallback fastStub ⟨0, 0⟩ zeroCounts (by decide)

/-- C6: a failing foreign open maps ACCESS to AccessDenied, NO_DEVICE to
NoDevice, and any other failing code outside the named specials to
HostQueryError; a successful open returns a handle carrying the same
context token as the device reference. -/
theorem open_dev_spec (stub : Stub) (d : Device) (st : CountState) :
    (stub.openStatus d.device = LIBUSB_ERROR_ACCESS →
      (Device.open_dev stub d st).1 = Except.error Error.AccessDenied) ∧
    (stub.openStatus d.device = LIBUSB_ERROR_NO_DEVICE →
      (Device.open_dev stub d st).1 = Except.error Error.NoDevice) ∧
    (stub.openStatus d.device ≠ 0 →
      stub.openStatus d.device ≠ LIBUSB_ERROR_NOT_FOUND →
      stub.openStatus d.device ≠ LIBUSB_ERROR_ACCESS →
      stub.openStatus d.device ≠ LIBUSB_ERROR_NO_DEVICE →
      (Device.open_dev stub d st).1 = Except.error Error.HostQueryError) ∧
    (stub.openStatus d.device = 0 →
      (Device.open_dev stub d st).1 =
        Except.ok ⟨d.context, stub.openHandleOf d.device⟩) := by
  refine ⟨fun h => ?_, fun h => ?_, fun h0 h5 h3 h4 => ?_, fun h => ?_⟩
  · simp [Device.open_dev, libusb_open, error_from_libusb, h,
      LIBUSB_ERROR_ACCESS, LIBUSB_ERROR_NOT_FOUND]
  · simp [Device.open_dev, libusb_open, error_from_libusb, h,
      LIBUSB_ERROR_ACCESS, LIBUSB_ERROR_NOT_FOUND, LIBUSB_ERROR_NO_DEVICE]
  · simp [Device.open_dev, libusb_open, error_from_libusb, h0, h5, h3, h4]
  · simp [Device.open_dev, libusb_open, device_handle_from_libusb, h]

/-- Witness for C6: a disconnected stub device opens to NoDevice, and a
successful open on a device with context token 3 yields a handle with
context token 3. -/
theorem open_dev_spec_witness :
    (Device.open_dev goneStub ⟨0, 0⟩ zeroCounts).1 = Except.error Error.NoDevice ∧
    (Device.open_dev defaultStub ⟨3, 0⟩ zeroCounts).1 = Except.ok ⟨3, 0⟩ :=
  ⟨(open_dev_spec goneStub ⟨0, 0⟩ zeroCounts).2.1 rfl,
   (open_dev_spec defaultStub ⟨3, 0⟩ zeroCounts).2.2.2 rfl⟩

/-- C7: every query operation returns the instrumented reference-count
state unchanged, on success and on error alike; parent and open touch no
reference count either, so only from_libusb and Drop mutate it. -/
theorem queries_preserve_counts (stub : Stub) (d : Device) (idx : Nat) (st : CountState) :
    (Device.device_descriptor stub d st).2 = st ∧
    (Device.config_descriptor stub d idx st).2 = st ∧
    (Device.active_config_descriptor stub d st).2 = st ∧
    (Device.bus_number stub d st).2 = st ∧
    (Device.port_number stub d st).2 = st ∧
    (Device.port_numbers stub d st).2 = st ∧
    (Device.address stub d st).2 = st ∧
    (Device.speed stub d st).2 = st ∧
    (Device.parent stub d st).2 = st ∧
    (Device.open_dev stub d st).2 = st :=
  ⟨rfl, rfl, rfl, rfl, rfl, rfl, rfl, rfl, rfl, rfl⟩

/-- C8: device_descriptor issues its single query and, on foreign success,
returns the decoded record whose fields are exactly the foreign-reported
vendor id, product id and configuration count; a generic foreign failure
yields HostQueryError, and no record is ever returned off the success
path. -/
theorem device_descriptor_spec (stub : Stub) (d : Device) (st : CountState) :
    (stub.deviceDescStatus d.device = 0 →
      (Device.device_descriptor stub d st).1 =
        Except.ok ⟨(stub.rawDeviceDesc d.device).idVendor,
                   (stub.rawDeviceDesc d.device).idProduct,
                   (stub.rawDeviceDesc d.device).bNumConfigurations⟩) ∧
    (stub.deviceDescStatus d.device ≠ 0 →
      stub.deviceDescStatus d.device ≠ LIBUSB_ERROR_NOT_FOUND →
      stub.deviceDescStatus d.device ≠ LIBUSB_ERROR_ACCESS →
      stub.deviceDescStatus d.device ≠ LIBUSB_ERROR_NO_DEVICE →
      (Device.device_descriptor stub d st).1 = Except.error Error.HostQueryError) ∧
    ∀ rec, (Device.device_descriptor stub d st).1 = Except.ok rec →
      stub.deviceDescStatus d.device = 0 := by
  refine ⟨fun h => ?_, fun h0 h5 h3 h4 => ?_, fun rec hrec => ?_⟩
  · simp [Device.device_descriptor, libusb_get_device_descriptor,
      device_descriptor_from_libusb, h]
  · simp [Device.device_descriptor, libusb_get_device_descriptor,
      error_from_libusb, h0, h5, h3, h4]
  · by_cases h : stub.deviceDescStatus d.device = 0
    · exact h
    · simp [Device.device_descriptor, libusb_get_device_descriptor, h] at hrec

/-- Witness for C8: the stubbed device with vendor id 0x1234 and product
id 0x5678 yields exactly those fields and no error. -/
theorem device_descriptor_spec_witness :
    (Device.device_descriptor vendorStub ⟨0, 0⟩ zeroCounts).1 =
      Except.ok ⟨0x1234, 0x5678, 1⟩ :=
  (device_descriptor_spec vendorStub ⟨0, 0⟩ zeroCounts).1 rfl

/-- C9: the slice of the 7-byte array at the usize cast of the i32 the
foreign call returned stays in bounds exactly when that value lies between
0 and 7; any negative status code, and any length above 7, reaches the
out-of-bounds panic branch of Device::port_numbers. -/
theorem port_numbers_slice_safe_iff (ret : Int) (array : List Nat)
    (harr : array.length = 7) (hlo : -(2 ^ 31) ≤ ret) (hhi : ret < 2 ^ 31) :
    (port_numbers_slice ret array).isSome = true ↔ 0 ≤ ret ∧ ret ≤ 7 := by
  have h64 : (2 : Int) ^ 64 = 18446744073709551616 := by norm_num
  have h31 : (2 : Int) ^ 31 = 2147483648 := by norm_num
  rw [h31] at hlo hhi
  unfold port_numbers_slice sliceTo castUsize
  rw [harr, h64]
  split
  · next hc =>
      simp only [Option.isSome_some, true_iff]
      omega
  · next hc =>
      simp only [Option.isSome_none, Bool.false_eq_true, false_iff, not_and]
      omega

/-- Witness for C9: the in-range return value 3 on the actual zeroed
7-byte array is panic free. -/
theorem port_numbers_slice_safe_iff_witness :
    (port_numbers_slice 3 (List.replicate 7 0)).isSome = true ↔
      (0 : Int) ≤ 3 ∧ (3 : Int) ≤ 7 :=
  port_numbers_slice_safe_iff 3 (List.replicate 7 0) (by decide) (by decide) (by decide)

/-- C10: every device reference reached by repeated parent() calls carries
the same context token as the reference it started from. -/
theorem parent_preserves_context (stub : Stub) (st : CountState) (d : Device)
    (n : Nat) (p : Device) (h : parentIter stub st d n = some p) :
    p.context = d.context := by
  induction n generalizing p with
  | zero =>
      unfold parentIter at h
      cases h
      rfl
  | succ n ih =>
      unfold parentIter at h
      cases he : parentIter stub st d n with
      | none => rw [he] at h; simp at h
      | some e =>
          rw [he] at h
          simp only [Option.bind] at h
          have hctx : e.context = d.context := ih e he
          cases hp : stub.parentOf e.device with
          | none => simp [Device.parent, libusb_get_parent, hp] at h
          | some q =>
              simp [Device.parent, libusb_get_parent, hp] at h
              rw [← h]
              exact hctx

/-- Witness for C10: one parent() step in the two-tier stub, from the leaf
with context token 5, lands on the hub with the same context token. -/
theorem parent_preserves_context_witness :
    (⟨5, 1⟩ : Device).context = (⟨5, 2⟩ : Device).context :=
  parent_preserves_context twoTierStub zeroCounts ⟨5, 2⟩ 1 ⟨5, 1⟩ rfl
